import Mathlib

/-!
Shallow embedding of oatpp's per-connection HTTP request-processing engine
(`oatpp::web::server::HttpProcessor`, file `HttpProcessor.cpp`), covering:

* the blocking strategy: `HttpProcessor::processRequest` and the
  `HttpProcessor::Task::run` keep-alive loop;
* the cooperative strategy: the `HttpProcessor::Coroutine` state machine
  (`onHeadersParsed`, `onRequestFormed` / `onResponse`, `onResponseFormed`,
  `onRequestDone`, `handleError`).

External collaborators (header reader, router, body decoder, error handler,
connection-state resolver) are not part of the sources; they enter the
embedding either as parameters (router, error handler, interceptors,
endpoint, per-request header-read outcomes) or, where their behaviour is
fixed by the specification, as definitions marked `Modelled from the spec`.
External calls and I/O are made observable through an event trace.
-/

namespace HttpProcessor

/-- Ordered header list; the engine only inserts and looks up by exact key. -/
abbrev Headers := List (String × String)

/-- First header value stored under key `k`, if any. -/
def getHeader (hs : Headers) (k : String) : Option String :=
  (hs.find? (fun p => p.1 = k)).map (fun p => p.2)

/-- Number of header entries stored under key `k`. -/
def countHeader (hs : Headers) (k : String) : Nat :=
  (hs.filter (fun p => p.1 = k)).length

/-- Embeds `Response::putHeaderIfNotExists`: insert `(k, v)` only when no
entry with key `k` is present. -/
def putHeaderIfNotExists (hs : Headers) (k v : String) : Headers :=
  if (getHeader hs k).isSome then hs else hs ++ [(k, v)]

/-- Name of the server-identification header (`protocol::http::Header::SERVER`). -/
def SERVER_NAME : String := "Server"

/-- Modelled from the spec: the fixed server-identification header value
(`protocol::http::Header::Value::SERVER`, absent from the sources); the spec
only requires it to be one fixed string. -/
def SERVER_VALUE : String := "oatpp Web Framework"

/-- Connection-lifecycle decision
(`CommunicationUtils::CONNECTION_STATE_*` constants). -/
inductive ConnectionState where
  | CLOSE
  | KEEP_ALIVE
  | UPGRADE
deriving DecidableEq, Repr

/-- Request start line (`headersReadResult.startingLine`): method, path and
protocol version. -/
structure StartingLine where
  method : String
  path : String
  protocol : String
deriving DecidableEq, Repr

/-- Successful header-read payload (`RequestHeadersReader::Result`). -/
structure HeadersReadResult where
  startingLine : StartingLine
  headers : Headers
deriving DecidableEq, Repr

/-- Error info filled in by `readHeaders`
(`oatpp::web::protocol::http::HttpError::Info`): a parse-level status code
(0 when none) and the raw I/O status. -/
structure HttpErrorInfo where
  statusCode : Nat
  ioStatus : Int
deriving DecidableEq, Repr

/-- Incoming request as assembled by `Request::createShared` from the start
line, the route's match map and the parsed headers (the lazily-bound body and
stream are opaque to this core and carry no observable data here). -/
structure Request where
  startingLine : StartingLine
  matchMap : List (String × String)
  headers : Headers
deriving DecidableEq, Repr

/-- Outgoing response: status, message body, headers, and the optional
connection-upgrade handler attached to it (represented by presence). -/
structure Response where
  status : Nat
  body : String
  headers : Headers
  upgradeHandler : Option Unit
deriving DecidableEq, Repr

/-- An error handler (`handler::ErrorHandler::handleError`): status, message
and pass-through headers to a response. The two-argument C++ overload is the
three-argument one with empty headers. -/
abbrev ErrorHandler := Nat → String → Headers → Response

/-- Modelled from the spec: the Error Handler contract
`handle(status, message, headers?) → Response` (the default handler is absent
from the sources); it forms a well-formed response from exactly the given
status, message and headers. -/
def defaultErrorHandler : ErrorHandler := fun status message headers =>
  { status := status, body := message, headers := headers, upgradeHandler := none }

/-- Default connection state for a request's protocol version. Modelled from
the spec: KEEP_ALIVE by default for HTTP/1.1, CLOSE by default for HTTP/1.0. -/
def versionDefaultState (request : Request) : ConnectionState :=
  if request.startingLine.protocol = "HTTP/1.1" then ConnectionState.KEEP_ALIVE
  else ConnectionState.CLOSE

/-- Decide a state from an explicit `Connection` header value, else fall back
to the protocol-version default. -/
def stateOfConnectionValue (request : Request) : Option String → ConnectionState
  | some v =>
    if v = "close" then ConnectionState.CLOSE
    else if v = "keep-alive" then ConnectionState.KEEP_ALIVE
    else versionDefaultState request
  | none => versionDefaultState request

/-- Modelled from the spec: the external Connection State Resolver
(`CommunicationUtils::considerConnectionState`, absent from the sources).
UPGRADE when the response carries an upgrade handler together with the
protocol-switch status and an `Upgrade` header; otherwise an explicit
`Connection` header (response first, else request) decides; otherwise the
protocol-version default applies. -/
def considerConnectionState (request : Request) (response : Response) : ConnectionState :=
  if response.upgradeHandler.isSome ∧ response.status = 101 ∧
      (getHeader response.headers "Upgrade").isSome then
    ConnectionState.UPGRADE
  else
    match getHeader response.headers "Connection" with
    | some v => stateOfConnectionValue request (some v)
    | none => stateOfConnectionValue request (getHeader request.headers "Connection")

/-- Stamp the server-identification header (`putHeaderIfNotExists(SERVER, ...)`,
lines 140 and 196 of the source). -/
def stampServer (r : Response) : Response :=
  { r with headers := putHeaderIfNotExists r.headers SERVER_NAME SERVER_VALUE }

/-- Failure raised by an interceptor or the endpoint, as discriminated by the
three catch clauses of `processRequest`: a structured `HttpError`, a
`std::exception` with a message, or an unknown exception. -/
inductive HttpFailure where
  | http (status : Nat) (message : String) (headers : Headers)
  | std (message : String)
  | unknown
deriving DecidableEq, Repr

/-- Outcome of one interceptor's `intercept(request)` call: a (non-null)
response, a null response, or a raised failure. -/
inductive InterceptorOutcome where
  | response (r : Response)
  | empty
  | raise (f : HttpFailure)
deriving DecidableEq, Repr

/-- Outcome of the endpoint's `handle(request)` call. -/
inductive HandlerOutcome where
  | response (r : Response)
  | raise (f : HttpFailure)
deriving DecidableEq, Repr

/-- A request interceptor in the chain, tagged with its insertion id so that
invocations are observable in the trace. -/
structure Interceptor where
  id : Nat
  intercept : Request → InterceptorOutcome

/-- A resolved route: path-parameter bindings plus the endpoint. -/
structure Route where
  matchMap : List (String × String)
  endpoint : Request → HandlerOutcome

/-- A router (`HttpRouter::getRoute`): method and path to an optional route. -/
abbrev Router := String → String → Option Route

/-- Request assembled by `Request::createShared` from a header-read result
and the matched route (lines 113-117 and 166-170 of the source). -/
def requestOf (res : HeadersReadResult) (route : Route) : Request :=
  { startingLine := res.startingLine, matchMap := route.matchMap, headers := res.headers }

/-- Observable events: external calls, sends and log lines, in program order. -/
inductive Event where
  | routerCall (method path : String)
  | interceptorCall (id : Nat)
  | endpointCall
  | errorHandlerCall (status : Nat) (message : String) (headers : Headers)
  | send (r : Response)
  | logError (message : String)
  | logWarn
  | upgradeCall
deriving DecidableEq, Repr

/-- Result of the interceptor walk plus endpoint call (`try` block of
`processRequest`, lines 120-131): either a response or a raised failure. -/
inductive TryResult where
  | ok (r : Response)
  | raised (f : HttpFailure)
deriving DecidableEq, Repr

/-- Embeds lines 121-131 of `processRequest`: walk the chain in order; break
on the first non-null response; if none, call the endpoint; any raise aborts
the walk. -/
def runChain (chain : List Interceptor) (endpoint : Request → HandlerOutcome)
    (req : Request) : TryResult × List Event :=
  match chain with
  | [] =>
    match endpoint req with
    | HandlerOutcome.response r => (TryResult.ok r, [Event.endpointCall])
    | HandlerOutcome.raise f => (TryResult.raised f, [Event.endpointCall])
  | i :: rest =>
    match i.intercept req with
    | InterceptorOutcome.response r => (TryResult.ok r, [Event.interceptorCall i.id])
    | InterceptorOutcome.raise f => (TryResult.raised f, [Event.interceptorCall i.id])
    | InterceptorOutcome.empty =>
      let (t, es) := runChain rest endpoint req
      (t, Event.interceptorCall i.id :: es)

/-- Response produced by the catch clauses of `processRequest`
(lines 132-138): `HttpError` passed through verbatim, `std::exception` mapped
to 500 with its message, anything else mapped to 500 "Unknown error". -/
def errorResponseFor (eh : ErrorHandler) : HttpFailure → Response
  | HttpFailure.http s m hs => eh s m hs
  | HttpFailure.std m => eh 500 m []
  | HttpFailure.unknown => eh 500 "Unknown error" []

/-- Error-handler call event matching `errorResponseFor`. -/
def errorEventFor : HttpFailure → Event
  | HttpFailure.http s m hs => Event.errorHandlerCall s m hs
  | HttpFailure.std m => Event.errorHandlerCall 500 m []
  | HttpFailure.unknown => Event.errorHandlerCall 500 "Unknown error" []

/-- Result of one `processRequest` call: the returned response (null means
drop the connection), the value of the in-out `connectionState` parameter on
return, and the trace of external calls made. -/
structure ProcResult where
  response : Option Response
  connectionState : ConnectionState
  events : List Event
deriving DecidableEq, Repr

/-- Embeds `HttpProcessor::processRequest` (lines 82-145). `headersOutcome`
is what `readHeaders` produced: the error info it filled in and the result
payload. `connectionState` is the value of the in-out parameter at entry. -/
def processRequest (router : Router) (headersOutcome : HttpErrorInfo × HeadersReadResult)
    (eh : ErrorHandler) (interceptors : List Interceptor)
    (connectionState : ConnectionState) : ProcResult :=
  let error := headersOutcome.1
  let res := headersOutcome.2
  if error.statusCode ≠ 0 then
    { response := some (eh error.statusCode "Invalid request headers" [])
      connectionState := ConnectionState.CLOSE
      events := [Event.errorHandlerCall error.statusCode "Invalid request headers" []] }
  else if error.ioStatus ≤ 0 then
    { response := none
      connectionState := ConnectionState.CLOSE
      events := [] }
  else
    match router res.startingLine.method res.startingLine.path with
    | none =>
      { response := some (eh 404 "Current url has no mapping" [])
        connectionState := ConnectionState.CLOSE
        events := [Event.routerCall res.startingLine.method res.startingLine.path,
                   Event.errorHandlerCall 404 "Current url has no mapping" []] }
    | some route =>
      let request := requestOf res route
      let walk := runChain interceptors route.endpoint request
      match walk.1 with
      | TryResult.raised f =>
        { response := some (errorResponseFor eh f)
          connectionState := connectionState
          events := Event.routerCall res.startingLine.method res.startingLine.path ::
                    walk.2 ++ [errorEventFor f] }
      | TryResult.ok r =>
        let r' := stampServer r
        { response := some r'
          connectionState := considerConnectionState request r'
          events := Event.routerCall res.startingLine.method res.startingLine.path :: walk.2 }

/-- Embeds the do-while loop of `HttpProcessor::Task::run` (lines 59-69).
The script supplies one header-read outcome per iteration; an empty script
stands for a closed stream, which `readHeaders` reports as a non-positive
I/O status, so `processRequest` returns null and the loop exits. Returns the
event trace, the final `connectionState` and the last response. -/
def taskLoop (router : Router) (eh : ErrorHandler) (interceptors : List Interceptor) :
    List (HttpErrorInfo × HeadersReadResult) → ConnectionState →
    List Event × ConnectionState × Option Response
  | [], _ => ([], ConnectionState.CLOSE, none)
  | h :: rest, cs =>
    let pr := processRequest router h eh interceptors cs
    match pr.response with
    | none => (pr.events, pr.connectionState, none)
    | some r =>
      if pr.connectionState = ConnectionState.KEEP_ALIVE then
        let t := taskLoop router eh interceptors rest pr.connectionState
        (pr.events ++ Event.send r :: t.1, t.2.1, t.2.2)
      else
        (pr.events ++ [Event.send r], pr.connectionState, some r)

/-- Embeds `HttpProcessor::Task::run` (lines 41-80): run the loop starting
from `CONNECTION_STATE_CLOSE` (line 52), then perform the upgrade handoff
(or log a warning) when the final state is UPGRADE. -/
def taskRun (router : Router) (eh : ErrorHandler) (interceptors : List Interceptor)
    (script : List (HttpErrorInfo × HeadersReadResult)) : List Event :=
  let t := taskLoop router eh interceptors script ConnectionState.CLOSE
  if t.2.1 = ConnectionState.UPGRADE then
    match t.2.2 with
    | some r =>
      match r.upgradeHandler with
      | some _ => t.1 ++ [Event.upgradeCall]
      | none => t.1 ++ [Event.logWarn]
    | none => t.1
  else t.1

/-- An error object reaching `Coroutine::handleError`: either an
`oatpp::data::AsyncIOError` carrying an I/O code, or any other error; both
carry a `what()` message. -/
inductive CoroError where
  | asyncIo (code : Int) (message : String)
  | generic (message : String)
deriving DecidableEq, Repr

/-- Message returned by the error object's `what()`. -/
def CoroError.what : CoroError → String
  | CoroError.asyncIo _ m => m
  | CoroError.generic m => m

/-- Modelled from the spec: the broken-pipe I/O failure code
(`oatpp::data::IOError::BROKEN_PIPE`, absent from the sources); only its
identity is used, via equality. -/
def BROKEN_PIPE : Int := -1003

/-- True when the error is an `AsyncIOError` whose code is `BROKEN_PIPE`
(lines 225-230 of the source). -/
def CoroError.isBrokenPipe : CoroError → Bool
  | CoroError.asyncIo code _ => code = BROKEN_PIPE
  | CoroError.generic _ => false

/-- Modelled from the spec: a failure raised inside a coroutine state routes
to the `HandleError` transition as an error object carrying the failure's
message (the async executor wrapping is absent from the sources; the
structured status of an `HttpError` is not preserved by `what()`). -/
def coroErrorOfFailure : HttpFailure → CoroError
  | HttpFailure.http _ m _ => CoroError.generic m
  | HttpFailure.std m => CoroError.generic m
  | HttpFailure.unknown => CoroError.generic "Unknown error"

/-- Mutable fields of `HttpProcessor::Coroutine` that the claims observe:
`m_currentRequest`, `m_currentResponse`, `m_connectionState`. The shared
connection, buffers and collaborators are the fixed environment. -/
structure CoroState where
  currentRequest : Option Request
  currentResponse : Option Response
  connectionState : ConnectionState
deriving DecidableEq, Repr

/-- State of a fresh coroutine: both shared pointers are null; the initial
connection-state value is never read before `onResponseFormed` assigns it. -/
def initCoroState : CoroState :=
  { currentRequest := none, currentResponse := none
    connectionState := ConnectionState.CLOSE }

/-- Where `Coroutine::handleError` transfers control: return the error to the
scheduler (terminal), or `yieldTo(onResponseFormed)`. -/
inductive HandleErrorNext where
  | propagate (e : Option CoroError)
  | toResponseFormed
deriving DecidableEq, Repr

/-- Embeds `Coroutine::handleError` (lines 221-244): a null error and a
broken-pipe `AsyncIOError` are returned unreported; with a response already
present the error is logged and returned; otherwise a 500 response with the
error's message is formed and control yields to `onResponseFormed`. -/
def Coroutine.handleError (eh : ErrorHandler) (st : CoroState) (error : Option CoroError) :
    CoroState × List Event × HandleErrorNext :=
  match error with
  | none => (st, [], HandleErrorNext.propagate none)
  | some e =>
    if e.isBrokenPipe then
      (st, [], HandleErrorNext.propagate (some e))
    else
      match st.currentResponse with
      | some _ => (st, [Event.logError e.what], HandleErrorNext.propagate (some e))
      | none =>
        ({ st with currentResponse := some (eh 500 e.what []) },
         [Event.errorHandlerCall 500 e.what []],
         HandleErrorNext.toResponseFormed)

/-- Embeds `Coroutine::onResponseFormed` (lines 194-201): stamp the server
header on `m_currentResponse`, recompute `m_connectionState` from
`m_currentRequest` and the stamped response, and send the response. The two
null-pointer fallbacks mirror states the C++ can only reach by dereferencing
a null shared pointer; no run in this file reaches them. -/
def Coroutine.onResponseFormed (st : CoroState) : CoroState × List Event :=
  match st.currentResponse with
  | none => (st, [])
  | some r =>
    let r' := stampServer r
    let cs :=
      match st.currentRequest with
      | some req => considerConnectionState req r'
      | none => ConnectionState.CLOSE
    ({ st with currentResponse := some r', connectionState := cs },
     [Event.send r'])

/-- Verdict of one pass of the state machine over one request cycle. -/
inductive IterResult where
  | nextRequest
  | finished
  | failed (e : Option CoroError)
deriving DecidableEq, Repr

/-- Embeds `Coroutine::onRequestDone` (lines 203-219): KEEP_ALIVE re-enters
`parseHeaders`; UPGRADE hands the connection to the response's upgrade
handler (or logs a warning) and finishes; otherwise finish. -/
def Coroutine.onRequestDone (st : CoroState) : List Event × IterResult :=
  if st.connectionState = ConnectionState.KEEP_ALIVE then
    ([], IterResult.nextRequest)
  else if st.connectionState = ConnectionState.UPGRADE then
    match st.currentResponse with
    | some r =>
      match r.upgradeHandler with
      | some _ => ([Event.upgradeCall], IterResult.finished)
      | none => ([Event.logWarn], IterResult.finished)
    | none => ([], IterResult.finished)
  else
    ([], IterResult.finished)

/-- The `FormResponse → SendResponse → RequestDone` tail shared by every path
that reaches `onResponseFormed`. -/
def Coroutine.responsePhase (st : CoroState) : CoroState × List Event × IterResult :=
  let f := Coroutine.onResponseFormed st
  let d := Coroutine.onRequestDone f.1
  (f.1, f.2 ++ d.1, d.2)

/-- Where the interceptor walk of `onHeadersParsed` (plus `onRequestFormed` /
`onResponse`) leaves the machine: ready for `onResponseFormed`, or a raised
failure. -/
inductive ChainNext where
  | formed
  | raised (f : HttpFailure)
deriving DecidableEq, Repr

/-- Embeds the interceptor walk of `Coroutine::onHeadersParsed`
(lines 172-181) followed by `onRequestFormed`/`onResponse` (lines 185-192):
each `intercept` call assigns `m_currentResponse` (also when it returns
null); a non-null response yields to `onResponseFormed`; after an empty walk
the endpoint's response is stored by `onResponse`. The first component is
the value of `m_currentResponse` on exit. -/
def coroChain (endpoint : Request → HandlerOutcome) (request : Request) :
    List Interceptor → Option Response → Option Response × List Event × ChainNext
  | [], cr =>
    match endpoint request with
    | HandlerOutcome.response r => (some r, [Event.endpointCall], ChainNext.formed)
    | HandlerOutcome.raise f => (cr, [Event.endpointCall], ChainNext.raised f)
  | i :: rest, cr =>
    match i.intercept request with
    | InterceptorOutcome.response r =>
      (some r, [Event.interceptorCall i.id], ChainNext.formed)
    | InterceptorOutcome.raise f =>
      (cr, [Event.interceptorCall i.id], ChainNext.raised f)
    | InterceptorOutcome.empty =>
      let t := coroChain endpoint request rest none
      (t.1, Event.interceptorCall i.id :: t.2.1, t.2.2)

/-- Per-cycle input to the coroutine: what `readHeadersAsync` produced —
a parsed result delivered to `onHeadersParsed`, or an error routed to
`handleError`. -/
inductive HeaderReadOutcome where
  | success (res : HeadersReadResult)
  | failure (e : CoroError)

/-- Route a raised failure through `handleError` and, when it forms a 500
response, through the response phase. -/
def Coroutine.errorPhase (eh : ErrorHandler) (st : CoroState) (e : CoroError) :
    CoroState × List Event × IterResult :=
  let h := Coroutine.handleError eh st (some e)
  match h.2.2 with
  | HandleErrorNext.propagate e' => (h.1, h.2.1, IterResult.failed e')
  | HandleErrorNext.toResponseFormed =>
    let p := Coroutine.responsePhase h.1
    (p.1, h.2.1 ++ p.2.1, p.2.2)

/-- One full request cycle of the coroutine, from the outcome of
`readHeadersAsync` to `onRequestDone` (or to a terminal error): embeds
`onHeadersParsed` (route resolution, lines 159-183) and the transitions that
follow it. On a route miss `m_currentRequest` is left as it was. -/
def coroIteration (router : Router) (eh : ErrorHandler) (interceptors : List Interceptor)
    (st : CoroState) (input : HeaderReadOutcome) : CoroState × List Event × IterResult :=
  match input with
  | HeaderReadOutcome.failure e => Coroutine.errorPhase eh st e
  | HeaderReadOutcome.success res =>
    match router res.startingLine.method res.startingLine.path with
    | none =>
      let st1 := { st with currentResponse := some (eh 404 "Current url has no mapping" []) }
      let p := Coroutine.responsePhase st1
      (p.1,
       Event.routerCall res.startingLine.method res.startingLine.path ::
       Event.errorHandlerCall 404 "Current url has no mapping" [] :: p.2.1,
       p.2.2)
    | some route =>
      let request := requestOf res route
      let st1 := { st with currentRequest := some request }
      let w := coroChain route.endpoint request interceptors st1.currentResponse
      let st2 := { st1 with currentResponse := w.1 }
      match w.2.2 with
      | ChainNext.formed =>
        let p := Coroutine.responsePhase st2
        (p.1,
         Event.routerCall res.startingLine.method res.startingLine.path :: w.2.1 ++ p.2.1,
         p.2.2)
      | ChainNext.raised f =>
        let e := Coroutine.errorPhase eh st2 (coroErrorOfFailure f)
        (e.1,
         Event.routerCall res.startingLine.method res.startingLine.path :: w.2.1 ++ e.2.1,
         e.2.2)

/-- Terminal verdict of a coroutine run. -/
inductive RunResult where
  | outOfInput
  | finished
  | failed (e : Option CoroError)
deriving DecidableEq, Repr

/-- Drive the coroutine over a script of header-read outcomes, one per
keep-alive cycle, starting at `parseHeaders` each time (lines 205-207). An
exhausted script means the scheduler has nothing further to deliver. -/
def coroRun (router : Router) (eh : ErrorHandler) (interceptors : List Interceptor) :
    List HeaderReadOutcome → CoroState → List Event × CoroState × RunResult
  | [], st => ([], st, RunResult.outOfInput)
  | input :: rest, st =>
    let it := coroIteration router eh interceptors st input
    match it.2.2 with
    | IterResult.nextRequest =>
      let t := coroRun router eh interceptors rest it.1
      (it.2.1 ++ t.1, t.2.1, t.2.2)
    | IterResult.finished => (it.2.1, it.1, RunResult.finished)
    | IterResult.failed e => (it.2.1, it.1, RunResult.failed e)

/-! Concrete instances used to evaluate the engine at specific inputs. -/

/-- A plain 200 response with no headers and no upgrade handler. -/
def okResponse : Response :=
  { status := 200, body := "OK", headers := [], upgradeHandler := none }

/-- A route whose endpoint returns `okResponse`. -/
def helloRoute : Route :=
  { matchMap := [], endpoint := fun _ => HandlerOutcome.response okResponse }

/-- A route whose endpoint raises the structured `HttpError` 403 "forbidden". -/
def forbiddenRoute : Route :=
  { matchMap := [], endpoint := fun _ => HandlerOutcome.raise (HttpFailure.http 403 "forbidden" []) }

/-- A route table with two routes: `GET /hello` and `GET /forbidden`. -/
def demoRouter : Router := fun method path =>
  if method = "GET" ∧ path = "/hello" then some helloRoute
  else if method = "GET" ∧ path = "/forbidden" then some forbiddenRoute
  else none

/-- A clean header-read outcome for `GET /hello HTTP/1.1` with no headers. -/
def helloRead11 : HttpErrorInfo × HeadersReadResult :=
  ({ statusCode := 0, ioStatus := 1 },
   { startingLine := { method := "GET", path := "/hello", protocol := "HTTP/1.1" }
     headers := [] })

/-- A clean header-read outcome for `GET /forbidden HTTP/1.1`. -/
def forbiddenRead11 : HttpErrorInfo × HeadersReadResult :=
  ({ statusCode := 0, ioStatus := 1 },
   { startingLine := { method := "GET", path := "/forbidden", protocol := "HTTP/1.1" }
     headers := [] })

/-- A clean header-read outcome for `GET /forbidden HTTP/1.0`. -/
def forbiddenRead10 : HttpErrorInfo × HeadersReadResult :=
  ({ statusCode := 0, ioStatus := 1 },
   { startingLine := { method := "GET", path := "/forbidden", protocol := "HTTP/1.0" }
     headers := [] })

/-- A clean header-read outcome for `GET /missing HTTP/1.1`, a path with no
route. -/
def missingRead11 : HttpErrorInfo × HeadersReadResult :=
  ({ statusCode := 0, ioStatus := 1 },
   { startingLine := { method := "GET", path := "/missing", protocol := "HTTP/1.1" }
     headers := [] })

/-- An interceptor that always returns a null response. -/
def passInterceptor : Interceptor :=
  { id := 1, intercept := fun _ => InterceptorOutcome.empty }

/-- The response produced by `blockInterceptor`. -/
def teapotResponse : Response :=
  { status := 418, body := "teapot", headers := [], upgradeHandler := none }

/-- An interceptor that short-circuits with a 418 response. -/
def blockInterceptor : Interceptor :=
  { id := 2, intercept := fun _ => InterceptorOutcome.response teapotResponse }

/-- A trailing interceptor that is never reached in the short-circuit runs. -/
def tailInterceptor : Interceptor :=
  { id := 3, intercept := fun _ => InterceptorOutcome.empty }

/-- View of a handler outcome as the result of the try block. -/
def toTryResult : HandlerOutcome → TryResult
  | HandlerOutcome.response r => TryResult.ok r
  | HandlerOutcome.raise f => TryResult.raised f

/-! Helper lemmas shared by the claim theorems. -/

theorem countHeader_append (a b : Headers) (k : String) :
    countHeader (a ++ b) k = countHeader a k + countHeader b k := by
  simp [countHeader, List.filter_append]

theorem countHeader_eq_zero (hs : Headers) (k : String) (h : getHeader hs k = none) :
    countHeader hs k = 0 := by
  have h' := Option.map_eq_none.mp h
  have hall := List.find?_eq_none.mp h'
  simp only [countHeader, List.length_eq_zero, List.filter_eq_nil_iff]
  intro p hp
  have := hall p hp
  simpa using this

theorem getHeader_append_right (hs : Headers) (k v : String) (h : getHeader hs k = none) :
    getHeader (hs ++ [(k, v)]) k = some v := by
  have h' := Option.map_eq_none.mp h
  simp [getHeader, List.find?_append, h']

/-- With no entry for `k`, `putHeaderIfNotExists` appends exactly one entry
carrying the default value. -/
theorem putHeader_absent (hs : Headers) (k v : String) (h : getHeader hs k = none) :
    putHeaderIfNotExists hs k v = hs ++ [(k, v)] ∧
    countHeader (putHeaderIfNotExists hs k v) k = 1 ∧
    getHeader (putHeaderIfNotExists hs k v) k = some v := by
  have hput : putHeaderIfNotExists hs k v = hs ++ [(k, v)] := by
    simp [putHeaderIfNotExists, h]
  refine ⟨hput, ?_, ?_⟩
  · rw [hput, countHeader_append, countHeader_eq_zero hs k h]
    simp [countHeader]
  · rw [hput]
    exact getHeader_append_right hs k v h

/-- With an entry for `k` already present, `putHeaderIfNotExists` is the
identity. -/
theorem putHeader_present (hs : Headers) (k v w : String) (h : getHeader hs k = some w) :
    putHeaderIfNotExists hs k v = hs := by
  simp [putHeaderIfNotExists, h]

/-- Blocking success path: headers parsed, route matched and the try block
produced a response; `processRequest` stamps the server header, recomputes
the connection state and returns the stamped response. -/
theorem processRequest_ok (router : Router) (eh : ErrorHandler)
    (interceptors : List Interceptor) (cs : ConnectionState)
    (out : HttpErrorInfo × HeadersReadResult) (route : Route) (r : Response) (es : List Event)
    (h1 : out.1.statusCode = 0) (h2 : 0 < out.1.ioStatus)
    (h3 : router out.2.startingLine.method out.2.startingLine.path = some route)
    (h4 : runChain interceptors route.endpoint (requestOf out.2 route) = (TryResult.ok r, es)) :
    processRequest router out eh interceptors cs =
      { response := some (stampServer r)
        connectionState := considerConnectionState (requestOf out.2 route) (stampServer r)
        events := Event.routerCall out.2.startingLine.method out.2.startingLine.path :: es } := by
  have h2' : ¬ out.1.ioStatus ≤ 0 := not_le.mpr h2
  simp [processRequest, h1, h2', h3, h4]

/-- Blocking error path: headers parsed, route matched and the try block
raised; `processRequest` returns the Error-Handler response and leaves the
in-out connection state at its entry value. -/
theorem processRequest_raised (router : Router) (eh : ErrorHandler)
    (interceptors : List Interceptor) (cs : ConnectionState)
    (out : HttpErrorInfo × HeadersReadResult) (route : Route) (f : HttpFailure) (es : List Event)
    (h1 : out.1.statusCode = 0) (h2 : 0 < out.1.ioStatus)
    (h3 : router out.2.startingLine.method out.2.startingLine.path = some route)
    (h4 : runChain interceptors route.endpoint (requestOf out.2 route) = (TryResult.raised f, es)) :
    processRequest router out eh interceptors cs =
      { response := some (errorResponseFor eh f)
        connectionState := cs
        events := Event.routerCall out.2.startingLine.method out.2.startingLine.path ::
                  es ++ [errorEventFor f] } := by
  have h2' : ¬ out.1.ioStatus ≤ 0 := not_le.mpr h2
  simp [processRequest, h1, h2', h3, h4]

/-- When the blocking try block produces a response, the coroutine's
interceptor walk plus endpoint call ends ready for `onResponseFormed`, with
the same response stored and the same trace. -/
theorem coroChain_ok_of_runChain (chain : List Interceptor)
    (endpoint : Request → HandlerOutcome) (req : Request) :
    ∀ (cr0 : Option Response) (r : Response) (es : List Event),
      runChain chain endpoint req = (TryResult.ok r, es) →
      coroChain endpoint req chain cr0 = (some r, es, ChainNext.formed) := by
  induction chain with
  | nil =>
    intro cr0 r es h
    cases he : endpoint req with
    | response r0 =>
      rw [runChain, he] at h
      obtain ⟨hr, hes⟩ := Prod.mk.injEq .. ▸ h
      simp [coroChain, he, (TryResult.ok.injEq .. ▸ hr : r0 = r), hes]
    | raise f =>
      rw [runChain, he] at h
      exact absurd (congrArg Prod.fst h) (by simp)
  | cons i rest ih =>
    intro cr0 r es h
    cases hi : i.intercept req with
    | response r0 =>
      rw [runChain, hi] at h
      obtain ⟨hr, hes⟩ := Prod.mk.injEq .. ▸ h
      simp [coroChain, hi, (TryResult.ok.injEq .. ▸ hr : r0 = r), hes]
    | raise f =>
      rw [runChain, hi] at h
      exact absurd (congrArg Prod.fst h) (by simp)
    | empty =>
      rw [runChain, hi] at h
      obtain ⟨t', es', ht⟩ : ∃ t' es', runChain rest endpoint req = (t', es') :=
        ⟨_, _, rfl⟩
      rw [ht] at h
      obtain ⟨hr, hes⟩ := Prod.mk.injEq .. ▸ h
      subst hr
      have := ih none r es' ht
      simp [coroChain, hi, this, hes]

/-! Claim theorems. -/

/-- C5: for every header-read outcome whose parse-level status code is
non-zero, `processRequest` returns the Error-Handler response for that status
with message "Invalid request headers" and sets the connection state to
CLOSE; the result — trace included, which contains no router call — is the
same for every router, so the router is never consulted. -/
theorem C5_parse_error_closes (router : Router) (eh : ErrorHandler)
    (interceptors : List Interceptor) (cs : ConnectionState)
    (out : HttpErrorInfo × HeadersReadResult) (h : out.1.statusCode ≠ 0) :
    processRequest router out eh interceptors cs =
      { response := some (eh out.1.statusCode "Invalid request headers" [])
        connectionState := ConnectionState.CLOSE
        events := [Event.errorHandlerCall out.1.statusCode "Invalid request headers" []] } := by
  simp [processRequest, h]

/-- Witness for C5 at a concrete input: status code 400, a populated route
table, entry state KEEP_ALIVE. -/
theorem C5_parse_error_closes_witness :
    (400 : Nat) ≠ 0 ∧
    processRequest demoRouter ({ statusCode := 400, ioStatus := 1 }, helloRead11.2)
        defaultErrorHandler [] ConnectionState.KEEP_ALIVE =
      { response := some (defaultErrorHandler 400 "Invalid request headers" [])
        connectionState := ConnectionState.CLOSE
        events := [Event.errorHandlerCall 400 "Invalid request headers" []] } :=
  ⟨by decide,
   C5_parse_error_closes demoRouter defaultErrorHandler [] ConnectionState.KEEP_ALIVE
     ({ statusCode := 400, ioStatus := 1 }, helloRead11.2) (by decide)⟩

/-- C6: for every header-read outcome with a zero parse status and a
non-positive I/O status, `processRequest` returns no response and performs
no external call, and the blocking loop stops at that iteration without
sending anything (its whole trace is empty and the remaining script is
never consumed). -/
theorem C6_io_exhaustion_drops (router : Router) (eh : ErrorHandler)
    (interceptors : List Interceptor) (cs : ConnectionState)
    (out : HttpErrorInfo × HeadersReadResult)
    (rest : List (HttpErrorInfo × HeadersReadResult))
    (h1 : out.1.statusCode = 0) (h2 : out.1.ioStatus ≤ 0) :
    processRequest router out eh interceptors cs =
      { response := none, connectionState := ConnectionState.CLOSE, events := [] } ∧
    taskLoop router eh interceptors (out :: rest) cs =
      ([], ConnectionState.CLOSE, none) := by
  have hp : processRequest router out eh interceptors cs =
      { response := none, connectionState := ConnectionState.CLOSE, events := [] } := by
    simp [processRequest, h1, h2]
  exact ⟨hp, by simp [taskLoop, hp]⟩

/-- Witness for C6 at a concrete input: I/O status 0 on a connection whose
route table is populated, with further script entries pending. -/
theorem C6_io_exhaustion_drops_witness :
    (({ statusCode := 0, ioStatus := 0 } : HttpErrorInfo).statusCode = 0 ∧
     ({ statusCode := 0, ioStatus := 0 } : HttpErrorInfo).ioStatus ≤ 0) ∧
    (processRequest demoRouter ({ statusCode := 0, ioStatus := 0 }, helloRead11.2)
        defaultErrorHandler [] ConnectionState.KEEP_ALIVE =
      { response := none, connectionState := ConnectionState.CLOSE, events := [] } ∧
     taskLoop demoRouter defaultErrorHandler []
        [({ statusCode := 0, ioStatus := 0 }, helloRead11.2), helloRead11]
        ConnectionState.KEEP_ALIVE =
      ([], ConnectionState.CLOSE, none)) :=
  ⟨⟨by decide, by decide⟩,
   C6_io_exhaustion_drops demoRouter defaultErrorHandler [] ConnectionState.KEEP_ALIVE
     ({ statusCode := 0, ioStatus := 0 }, helloRead11.2) [helloRead11]
     (by decide) (by decide)⟩

/-- C10: when the try block raises, `processRequest` returns the
Error-Handler response while the in-out `connectionState` keeps its entry
value; hence, entering an iteration with KEEP_ALIVE (as after a previous
keep-alive cycle), the blocking loop sends the error response and proceeds
to another iteration instead of closing. -/
theorem C10_error_leaves_state (router : Router) (eh : ErrorHandler)
    (interceptors : List Interceptor) (cs : ConnectionState)
    (out : HttpErrorInfo × HeadersReadResult) (route : Route) (f : HttpFailure)
    (es : List Event) (rest : List (HttpErrorInfo × HeadersReadResult))
    (h1 : out.1.statusCode = 0) (h2 : 0 < out.1.ioStatus)
    (h3 : router out.2.startingLine.method out.2.startingLine.path = some route)
    (h4 : runChain interceptors route.endpoint (requestOf out.2 route) = (TryResult.raised f, es)) :
    (processRequest router out eh interceptors cs).response = some (errorResponseFor eh f) ∧
    (processRequest router out eh interceptors cs).connectionState = cs ∧
    taskLoop router eh interceptors (out :: rest) ConnectionState.KEEP_ALIVE =
      ((Event.routerCall out.2.startingLine.method out.2.startingLine.path ::
          es ++ [errorEventFor f]) ++
        Event.send (errorResponseFor eh f) ::
          (taskLoop router eh interceptors rest ConnectionState.KEEP_ALIVE).1,
       (taskLoop router eh interceptors rest ConnectionState.KEEP_ALIVE).2.1,
       (taskLoop router eh interceptors rest ConnectionState.KEEP_ALIVE).2.2) := by
  have hp := processRequest_raised router eh interceptors cs out route f es h1 h2 h3 h4
  have hp' := processRequest_raised router eh interceptors ConnectionState.KEEP_ALIVE
    out route f es h1 h2 h3 h4
  refine ⟨by rw [hp], by rw [hp], ?_⟩
  simp [taskLoop, hp']

/-- Witness for C10 at a concrete input: the `/forbidden` endpoint raises the
structured 403 error on the second keep-alive cycle; the loop sends the 403
response and processes the following `/hello` request. -/
theorem C10_error_leaves_state_witness :
    (processRequest demoRouter forbiddenRead11 defaultErrorHandler []
        ConnectionState.KEEP_ALIVE).response =
      some (errorResponseFor defaultErrorHandler (HttpFailure.http 403 "forbidden" [])) ∧
    (processRequest demoRouter forbiddenRead11 defaultErrorHandler []
        ConnectionState.KEEP_ALIVE).connectionState = ConnectionState.KEEP_ALIVE ∧
    taskLoop demoRouter defaultErrorHandler [] [forbiddenRead11, helloRead11]
        ConnectionState.KEEP_ALIVE =
      ((Event.routerCall "GET" "/forbidden" ::
          [Event.endpointCall] ++ [Event.errorHandlerCall 403 "forbidden" []]) ++
        Event.send (errorResponseFor defaultErrorHandler (HttpFailure.http 403 "forbidden" [])) ::
          (taskLoop demoRouter defaultErrorHandler [] [helloRead11]
            ConnectionState.KEEP_ALIVE).1,
       (taskLoop demoRouter defaultErrorHandler [] [helloRead11]
         ConnectionState.KEEP_ALIVE).2.1,
       (taskLoop demoRouter defaultErrorHandler [] [helloRead11]
         ConnectionState.KEEP_ALIVE).2.2) :=
  C10_error_leaves_state demoRouter defaultErrorHandler [] ConnectionState.KEEP_ALIVE
    forbiddenRead11 forbiddenRoute (HttpFailure.http 403 "forbidden" [])
    [Event.endpointCall] [helloRead11] (by decide) (by decide) rfl (by decide)

/-- C3 counterexample: the endpoint of `GET /forbidden HTTP/1.0` raises the
structured 403 "forbidden" error while the in-out connection state is
KEEP_ALIVE at entry. The 403 Error-Handler response is returned, but the
connection state handed back is the entry value KEEP_ALIVE, not the value
the connection-state resolver computes from this request and this
response's headers (CLOSE, by the HTTP/1.0 default). -/
theorem C3_counterexample :
    (processRequest demoRouter forbiddenRead10 defaultErrorHandler []
        ConnectionState.KEEP_ALIVE).response =
      some (defaultErrorHandler 403 "forbidden" []) ∧
    (processRequest demoRouter forbiddenRead10 defaultErrorHandler []
        ConnectionState.KEEP_ALIVE).connectionState = ConnectionState.KEEP_ALIVE ∧
    considerConnectionState (requestOf forbiddenRead10.2 forbiddenRoute)
        (defaultErrorHandler 403 "forbidden" []) = ConnectionState.CLOSE ∧
    (processRequest demoRouter forbiddenRead10 defaultErrorHandler []
        ConnectionState.KEEP_ALIVE).connectionState ≠
      considerConnectionState (requestOf forbiddenRead10.2 forbiddenRoute)
        (defaultErrorHandler 403 "forbidden" []) := by
  refine ⟨?_, ?_, by decide, ?_⟩ <;> decide

/-- C3 amended: a handler invocation raising the structured HTTP error with
status 403 and message "forbidden" makes `processRequest` return the
Error-Handler response for status 403, message "forbidden" and the error's
headers passed through verbatim — but the in-out `connectionState` parameter
is left unchanged at its entry value, not recomputed from the request and the
response's headers. -/
theorem C3_structured_error_passthrough (router : Router) (eh : ErrorHandler)
    (interceptors : List Interceptor) (cs : ConnectionState)
    (out : HttpErrorInfo × HeadersReadResult) (route : Route) (hs : Headers) (es : List Event)
    (h1 : out.1.statusCode = 0) (h2 : 0 < out.1.ioStatus)
    (h3 : router out.2.startingLine.method out.2.startingLine.path = some route)
    (h4 : runChain interceptors route.endpoint (requestOf out.2 route) =
      (TryResult.raised (HttpFailure.http 403 "forbidden" hs), es)) :
    (processRequest router out eh interceptors cs).response = some (eh 403 "forbidden" hs) ∧
    (processRequest router out eh interceptors cs).connectionState = cs := by
  have hp := processRequest_raised router eh interceptors cs out route
    (HttpFailure.http 403 "forbidden" hs) es h1 h2 h3 h4
  exact ⟨by rw [hp]; rfl, by rw [hp]⟩

/-- Witness for the amended C3 at a concrete input: `GET /forbidden HTTP/1.0`
with entry state KEEP_ALIVE. -/
theorem C3_structured_error_passthrough_witness :
    (processRequest demoRouter forbiddenRead10 defaultErrorHandler []
        ConnectionState.KEEP_ALIVE).response =
      some (defaultErrorHandler 403 "forbidden" []) ∧
    (processRequest demoRouter forbiddenRead10 defaultErrorHandler []
        ConnectionState.KEEP_ALIVE).connectionState = ConnectionState.KEEP_ALIVE :=
  C3_structured_error_passthrough demoRouter defaultErrorHandler []
    ConnectionState.KEEP_ALIVE forbiddenRead10 forbiddenRoute [] [Event.endpointCall]
    (by decide) (by decide) rfl (by decide)

/-- C4 counterexample: with an error handler following the spec's contract
(forming a response from exactly the given status, message and headers), the
blocking engine's 404 route-miss response is returned with no
server-identification header at all — not exactly one. -/
theorem C4_counterexample :
    (processRequest (fun _ _ => none) missingRead11 defaultErrorHandler []
        ConnectionState.CLOSE).response =
      some { status := 404, body := "Current url has no mapping", headers := []
             upgradeHandler := none } ∧
    ((processRequest (fun _ _ => none) missingRead11 defaultErrorHandler []
        ConnectionState.CLOSE).response.map
      (fun r => countHeader r.headers SERVER_NAME)) = some 0 := by
  refine ⟨?_, ?_⟩ <;> decide

/-- C4 amended: on the normal path (interceptor or handler response) the
blocking engine returns the response with the server header injected when
absent — then exactly one such header, carrying the default value — and
preserved unmodified with no duplicate when the handler set one; the
cooperative strategy stamps identically in `onResponseFormed`; but an
Error-Handler response returned from the blocking engine's try-block error
path is passed back exactly as the Error Handler produced it, with no
server-header injection. -/
theorem C4_server_header_stamping (router : Router) (eh : ErrorHandler)
    (interceptors : List Interceptor) (cs : ConnectionState)
    (out : HttpErrorInfo × HeadersReadResult) (route : Route) (r : Response)
    (f : HttpFailure) (es es' : List Event) (st : CoroState) (v : String)
    (h1 : out.1.statusCode = 0) (h2 : 0 < out.1.ioStatus)
    (h3 : router out.2.startingLine.method out.2.startingLine.path = some route) :
    (runChain interceptors route.endpoint (requestOf out.2 route) = (TryResult.ok r, es) →
      ((processRequest router out eh interceptors cs).response.map Response.headers =
        some (putHeaderIfNotExists r.headers SERVER_NAME SERVER_VALUE) ∧
       (getHeader r.headers SERVER_NAME = none →
         (processRequest router out eh interceptors cs).response.map
            (fun q => countHeader q.headers SERVER_NAME) = some 1 ∧
         (processRequest router out eh interceptors cs).response.map
            (fun q => getHeader q.headers SERVER_NAME) = some (some SERVER_VALUE)) ∧
       (getHeader r.headers SERVER_NAME = some v →
         (processRequest router out eh interceptors cs).response.map Response.headers =
           some r.headers))) ∧
    (st.currentResponse = some r →
      (Coroutine.onResponseFormed st).1.currentResponse = some (stampServer r)) ∧
    (runChain interceptors route.endpoint (requestOf out.2 route) =
        (TryResult.raised f, es') →
      (processRequest router out eh interceptors cs).response =
        some (errorResponseFor eh f)) := by
  refine ⟨?_, ?_, ?_⟩
  · intro h4
    have hp := processRequest_ok router eh interceptors cs out route r es h1 h2 h3 h4
    refine ⟨by rw [hp]; rfl, ?_, ?_⟩
    · intro habs
      obtain ⟨-, hcount, hget⟩ := putHeader_absent r.headers SERVER_NAME SERVER_VALUE habs
      constructor
      · rw [hp]
        simp [stampServer, hcount]
      · rw [hp]
        simp [stampServer, hget]
    · intro hpres
      rw [hp]
      simp [stampServer, putHeader_present r.headers SERVER_NAME SERVER_VALUE v hpres]
  · intro hr
    simp [Coroutine.onResponseFormed, hr]
  · intro h4
    have hp := processRequest_raised router eh interceptors cs out route f es' h1 h2 h3 h4
    rw [hp]

/-- Witness for the amended C4 at concrete inputs: the `/hello` endpoint's
headerless 200 response gets exactly one server header with the default
value; a coroutine state holding that response is stamped the same way; and
the raised 403 yields the Error Handler's headerless response untouched. -/
theorem C4_server_header_stamping_witness :
    ((processRequest demoRouter helloRead11 defaultErrorHandler []
        ConnectionState.CLOSE).response.map Response.headers =
      some (putHeaderIfNotExists okResponse.headers SERVER_NAME SERVER_VALUE) ∧
     (processRequest demoRouter helloRead11 defaultErrorHandler []
        ConnectionState.CLOSE).response.map
       (fun q => countHeader q.headers SERVER_NAME) = some 1 ∧
     (processRequest demoRouter helloRead11 defaultErrorHandler []
        ConnectionState.CLOSE).response.map
       (fun q => getHeader q.headers SERVER_NAME) = some (some SERVER_VALUE)) ∧
    ((Coroutine.onResponseFormed
        { currentRequest := some (requestOf helloRead11.2 helloRoute)
          currentResponse := some okResponse
          connectionState := ConnectionState.CLOSE }).1.currentResponse =
      some (stampServer okResponse)) ∧
    ((processRequest demoRouter forbiddenRead11 defaultErrorHandler []
        ConnectionState.CLOSE).response =
      some (errorResponseFor defaultErrorHandler (HttpFailure.http 403 "forbidden" []))) := by
  have h := C4_server_header_stamping demoRouter defaultErrorHandler []
    ConnectionState.CLOSE helloRead11 helloRoute okResponse
    (HttpFailure.http 403 "forbidden" []) [Event.endpointCall] [Event.endpointCall]
    { currentRequest := some (requestOf helloRead11.2 helloRoute)
      currentResponse := some okResponse
      connectionState := ConnectionState.CLOSE }
    SERVER_VALUE (by decide) (by decide) rfl
  have h' := C4_server_header_stamping demoRouter defaultErrorHandler []
    ConnectionState.CLOSE forbiddenRead11 forbiddenRoute okResponse
    (HttpFailure.http 403 "forbidden" []) [Event.endpointCall] [Event.endpointCall]
    { currentRequest := some (requestOf helloRead11.2 helloRoute)
      currentResponse := some okResponse
      connectionState := ConnectionState.CLOSE }
    SERVER_VALUE (by decide) (by decide) rfl
  obtain ⟨hok, hcoro, -⟩ := h
  obtain ⟨hall, habs, -⟩ := hok (by decide)
  obtain ⟨hc1, hc2⟩ := habs (by decide)
  exact ⟨⟨hall, hc1, hc2⟩, hcoro (by decide), (h'.2.2) (by decide)⟩

/-- Cooperative route miss: `onHeadersParsed` stores the 404 Error-Handler
response and leaves `m_currentRequest` untouched, so `onResponseFormed`
computes the connection state with the connection-state resolver from the
previous request and the stamped 404 response. -/
theorem coroIteration_route_miss (router : Router) (eh : ErrorHandler)
    (interceptors : List Interceptor) (st : CoroState) (res : HeadersReadResult)
    (prevReq : Request)
    (h3 : router res.startingLine.method res.startingLine.path = none)
    (hreq : st.currentRequest = some prevReq) :
    (coroIteration router eh interceptors st (HeaderReadOutcome.success res)).1.currentRequest =
      some prevReq ∧
    (coroIteration router eh interceptors st (HeaderReadOutcome.success res)).1.currentResponse =
      some (stampServer (eh 404 "Current url has no mapping" [])) ∧
    (coroIteration router eh interceptors st (HeaderReadOutcome.success res)).1.connectionState =
      considerConnectionState prevReq (stampServer (eh 404 "Current url has no mapping" [])) := by
  refine ⟨?_, ?_, ?_⟩ <;>
    simp [coroIteration, h3, Coroutine.responsePhase, Coroutine.onResponseFormed, hreq]

/-- Cooperative success path: with a matched route and a try block that
produces `r`, one cycle of the coroutine stores the new request, stores and
sends the stamped response, and computes the connection state from the new
request and the stamped response. -/
theorem coroIteration_ok (router : Router) (eh : ErrorHandler)
    (interceptors : List Interceptor) (st : CoroState) (res : HeadersReadResult)
    (route : Route) (r : Response) (es : List Event)
    (h3 : router res.startingLine.method res.startingLine.path = some route)
    (h4 : runChain interceptors route.endpoint (requestOf res route) = (TryResult.ok r, es)) :
    (coroIteration router eh interceptors st (HeaderReadOutcome.success res)).1.currentRequest =
      some (requestOf res route) ∧
    (coroIteration router eh interceptors st (HeaderReadOutcome.success res)).1.currentResponse =
      some (stampServer r) ∧
    (coroIteration router eh interceptors st (HeaderReadOutcome.success res)).1.connectionState =
      considerConnectionState (requestOf res route) (stampServer r) ∧
    Event.send (stampServer r) ∈
      (coroIteration router eh interceptors st (HeaderReadOutcome.success res)).2.1 := by
  have hc := coroChain_ok_of_runChain interceptors route.endpoint (requestOf res route)
    st.currentResponse r es h4
  refine ⟨?_, ?_, ?_, ?_⟩ <;>
    simp [coroIteration, h3, hc, Coroutine.responsePhase, Coroutine.onResponseFormed]

/-- C2 counterexample: on a keep-alive connection the second request,
`GET /missing HTTP/1.1`, has no route. The cooperative strategy produces the
404 Error-Handler response (stamped and sent), but the connection state it
computes is KEEP_ALIVE — derived by the connection-state resolver from the
previous request — not CLOSE as the claim requires for both strategies. -/
theorem C2_counterexample :
    (coroRun demoRouter defaultErrorHandler []
        [HeaderReadOutcome.success helloRead11.2, HeaderReadOutcome.success missingRead11.2]
        initCoroState).2.1.currentResponse =
      some { status := 404, body := "Current url has no mapping"
             headers := [(SERVER_NAME, SERVER_VALUE)], upgradeHandler := none } ∧
    Event.send { status := 404, body := "Current url has no mapping"
                 headers := [(SERVER_NAME, SERVER_VALUE)], upgradeHandler := none } ∈
      (coroRun demoRouter defaultErrorHandler []
        [HeaderReadOutcome.success helloRead11.2, HeaderReadOutcome.success missingRead11.2]
        initCoroState).1 ∧
    (coroRun demoRouter defaultErrorHandler []
        [HeaderReadOutcome.success helloRead11.2, HeaderReadOutcome.success missingRead11.2]
        initCoroState).2.1.connectionState = ConnectionState.KEEP_ALIVE := by
  refine ⟨?_, ?_, ?_⟩ <;> decide

/-- C2 amended: for a request with no matching route, the blocking strategy
returns the 404 Error-Handler response and forces the connection state to
CLOSE; the cooperative strategy forms and sends the same 404 Error-Handler
response (stamped), but computes the connection state with the
connection-state resolver from the previous request and that response's
headers instead of forcing CLOSE. -/
theorem C2_route_miss (router : Router) (eh : ErrorHandler)
    (interceptors : List Interceptor) (cs : ConnectionState)
    (out : HttpErrorInfo × HeadersReadResult) (st : CoroState) (prevReq : Request)
    (h1 : out.1.statusCode = 0) (h2 : 0 < out.1.ioStatus)
    (h3 : router out.2.startingLine.method out.2.startingLine.path = none) :
    (processRequest router out eh interceptors cs =
      { response := some (eh 404 "Current url has no mapping" [])
        connectionState := ConnectionState.CLOSE
        events := [Event.routerCall out.2.startingLine.method out.2.startingLine.path,
                   Event.errorHandlerCall 404 "Current url has no mapping" []] }) ∧
    (st.currentRequest = some prevReq →
      (coroIteration router eh interceptors st (HeaderReadOutcome.success out.2)).1.currentResponse =
        some (stampServer (eh 404 "Current url has no mapping" [])) ∧
      (coroIteration router eh interceptors st (HeaderReadOutcome.success out.2)).1.connectionState =
        considerConnectionState prevReq (stampServer (eh 404 "Current url has no mapping" []))) := by
  constructor
  · have h2' : ¬ out.1.ioStatus ≤ 0 := not_le.mpr h2
    simp [processRequest, h1, h2', h3]
  · intro hreq
    obtain ⟨-, hresp, hstate⟩ :=
      coroIteration_route_miss router eh interceptors st out.2 prevReq h3 hreq
    exact ⟨hresp, hstate⟩

/-- Witness for the amended C2 at a concrete input: `GET /missing HTTP/1.1`
against the demo route table, the coroutine entered with the previous
`/hello` request still stored. -/
theorem C2_route_miss_witness :
    (processRequest demoRouter missingRead11 defaultErrorHandler []
        ConnectionState.KEEP_ALIVE =
      { response := some (defaultErrorHandler 404 "Current url has no mapping" [])
        connectionState := ConnectionState.CLOSE
        events := [Event.routerCall "GET" "/missing",
                   Event.errorHandlerCall 404 "Current url has no mapping" []] }) ∧
    ((coroIteration demoRouter defaultErrorHandler []
        { currentRequest := some (requestOf helloRead11.2 helloRoute)
          currentResponse := some (stampServer okResponse)
          connectionState := ConnectionState.KEEP_ALIVE }
        (HeaderReadOutcome.success missingRead11.2)).1.currentResponse =
      some (stampServer (defaultErrorHandler 404 "Current url has no mapping" [])) ∧
     (coroIteration demoRouter defaultErrorHandler []
        { currentRequest := some (requestOf helloRead11.2 helloRoute)
          currentResponse := some (stampServer okResponse)
          connectionState := ConnectionState.KEEP_ALIVE }
        (HeaderReadOutcome.success missingRead11.2)).1.connectionState =
      considerConnectionState (requestOf helloRead11.2 helloRoute)
        (stampServer (defaultErrorHandler 404 "Current url has no mapping" []))) := by
  have h := C2_route_miss demoRouter defaultErrorHandler [] ConnectionState.KEEP_ALIVE
    missingRead11
    { currentRequest := some (requestOf helloRead11.2 helloRoute)
      currentResponse := some (stampServer okResponse)
      connectionState := ConnectionState.KEEP_ALIVE }
    (requestOf helloRead11.2 helloRoute) (by decide) (by decide) rfl
  exact ⟨h.1, h.2 (by decide)⟩

/-- C1 counterexample: for the same header-read outcome, route table,
(empty) interceptor chain and handler behaviour — the `GET /forbidden
HTTP/1.1` endpoint raising the structured 403 "forbidden" error — the
blocking strategy returns the Error-Handler response for status 403, while
the cooperative strategy forms, stores and sends the Error-Handler response
for status 500: the two strategies classify the same failure differently. -/
theorem C1_counterexample :
    ((processRequest demoRouter forbiddenRead11 defaultErrorHandler []
        ConnectionState.CLOSE).response.map Response.status) = some 403 ∧
    ((coroRun demoRouter defaultErrorHandler []
        [HeaderReadOutcome.success forbiddenRead11.2]
        initCoroState).2.1.currentResponse.map Response.status) = some 500 ∧
    Event.send { status := 500, body := "forbidden"
                 headers := [(SERVER_NAME, SERVER_VALUE)], upgradeHandler := none } ∈
      (coroRun demoRouter defaultErrorHandler []
        [HeaderReadOutcome.success forbiddenRead11.2] initCoroState).1 := by
  refine ⟨?_, ?_, ?_⟩ <;> decide

/-- C1 amended: on the non-failure path — headers parsed with a positive I/O
status, a route matched, and the interceptor chain plus handler producing a
response without raising — the blocking and cooperative strategies agree
observably: both return/store-and-send the same stamped response and compute
the same connection state from the same request and response. -/
theorem C1_success_path_equivalence (router : Router) (eh : ErrorHandler)
    (interceptors : List Interceptor) (cs : ConnectionState) (st : CoroState)
    (out : HttpErrorInfo × HeadersReadResult) (route : Route) (r : Response) (es : List Event)
    (h1 : out.1.statusCode = 0) (h2 : 0 < out.1.ioStatus)
    (h3 : router out.2.startingLine.method out.2.startingLine.path = some route)
    (h4 : runChain interceptors route.endpoint (requestOf out.2 route) = (TryResult.ok r, es)) :
    processRequest router out eh interceptors cs =
      { response := some (stampServer r)
        connectionState := considerConnectionState (requestOf out.2 route) (stampServer r)
        events := Event.routerCall out.2.startingLine.method out.2.startingLine.path :: es } ∧
    (coroIteration router eh interceptors st (HeaderReadOutcome.success out.2)).1.currentResponse =
      some (stampServer r) ∧
    (coroIteration router eh interceptors st (HeaderReadOutcome.success out.2)).1.connectionState =
      considerConnectionState (requestOf out.2 route) (stampServer r) ∧
    Event.send (stampServer r) ∈
      (coroIteration router eh interceptors st (HeaderReadOutcome.success out.2)).2.1 := by
  obtain ⟨-, hresp, hstate, hsend⟩ :=
    coroIteration_ok router eh interceptors st out.2 route r es h3 h4
  exact ⟨processRequest_ok router eh interceptors cs out route r es h1 h2 h3 h4,
         hresp, hstate, hsend⟩

/-- Witness for the amended C1 at a concrete input: `GET /hello HTTP/1.1`
served by the `/hello` endpoint with an empty interceptor chain. -/
theorem C1_success_path_equivalence_witness :
    processRequest demoRouter helloRead11 defaultErrorHandler [] ConnectionState.CLOSE =
      { response := some (stampServer okResponse)
        connectionState := considerConnectionState (requestOf helloRead11.2 helloRoute)
          (stampServer okResponse)
        events := Event.routerCall "GET" "/hello" :: [Event.endpointCall] } ∧
    (coroIteration demoRouter defaultErrorHandler [] initCoroState
        (HeaderReadOutcome.success helloRead11.2)).1.currentResponse =
      some (stampServer okResponse) ∧
    (coroIteration demoRouter defaultErrorHandler [] initCoroState
        (HeaderReadOutcome.success helloRead11.2)).1.connectionState =
      considerConnectionState (requestOf helloRead11.2 helloRoute) (stampServer okResponse) ∧
    Event.send (stampServer okResponse) ∈
      (coroIteration demoRouter defaultErrorHandler [] initCoroState
        (HeaderReadOutcome.success helloRead11.2)).2.1 :=
  C1_success_path_equivalence demoRouter defaultErrorHandler [] ConnectionState.CLOSE
    initCoroState helloRead11 helloRoute okResponse [Event.endpointCall]
    (by decide) (by decide) rfl (by decide)

/-- Walking past a prefix of interceptors that all return null responses
only records their calls in insertion order. -/
theorem runChain_skips_empty (pre rest : List Interceptor)
    (endpoint : Request → HandlerOutcome) (req : Request)
    (h : ∀ j ∈ pre, j.intercept req = InterceptorOutcome.empty) :
    runChain (pre ++ rest) endpoint req =
      ((runChain rest endpoint req).1,
       pre.map (fun j => Event.interceptorCall j.id) ++ (runChain rest endpoint req).2) := by
  induction pre with
  | nil => simp
  | cons i pre' ih =>
    have hi : i.intercept req = InterceptorOutcome.empty := h i (by simp)
    have h' : ∀ j ∈ pre', j.intercept req = InterceptorOutcome.empty :=
      fun j hj => h j (by simp [hj])
    simp [runChain, hi, ih h']

/-- An exhausted chain hands the request to the endpoint. -/
theorem runChain_nil (endpoint : Request → HandlerOutcome) (req : Request) :
    runChain [] endpoint req = (toTryResult (endpoint req), [Event.endpointCall]) := by
  cases he : endpoint req <;> simp [runChain, toTryResult, he]

/-- C7: interceptors are invoked in insertion order; past a prefix that
returns null responses, the first interceptor yielding a non-null response
short-circuits — the try block ends with exactly that response, the later
interceptors and the endpoint never invoked — and `processRequest` then puts
that response through the same stamp-server-header / compute-state path used
for a handler response; if every interceptor returns a null response, the
endpoint is invoked with the request. -/
theorem C7_interceptor_chain (pre : List Interceptor) (i : Interceptor)
    (post chain : List Interceptor) (endpoint : Request → HandlerOutcome)
    (req : Request) (r : Response) (es : List Event) (router : Router)
    (eh : ErrorHandler) (cs : ConnectionState)
    (out : HttpErrorInfo × HeadersReadResult) (route : Route) :
    ((∀ j ∈ pre, j.intercept req = InterceptorOutcome.empty) →
      i.intercept req = InterceptorOutcome.response r →
      runChain (pre ++ i :: post) endpoint req =
        (TryResult.ok r,
         pre.map (fun j => Event.interceptorCall j.id) ++ [Event.interceptorCall i.id])) ∧
    ((∀ j ∈ chain, j.intercept req = InterceptorOutcome.empty) →
      runChain chain endpoint req =
        (toTryResult (endpoint req),
         chain.map (fun j => Event.interceptorCall j.id) ++ [Event.endpointCall])) ∧
    (out.1.statusCode = 0 → 0 < out.1.ioStatus →
      router out.2.startingLine.method out.2.startingLine.path = some route →
      runChain (pre ++ i :: post) route.endpoint (requestOf out.2 route) =
        (TryResult.ok r, es) →
      processRequest router out eh (pre ++ i :: post) cs =
        { response := some (stampServer r)
          connectionState := considerConnectionState (requestOf out.2 route) (stampServer r)
          events := Event.routerCall out.2.startingLine.method out.2.startingLine.path :: es }) := by
  refine ⟨?_, ?_, ?_⟩
  · intro hpre hi
    rw [runChain_skips_empty pre (i :: post) endpoint req hpre]
    simp [runChain, hi]
  · intro hall
    have := runChain_skips_empty chain [] endpoint req hall
    rw [List.append_nil] at this
    rw [this, runChain_nil]
  · intro h1 h2 h3 h4
    exact processRequest_ok router eh (pre ++ i :: post) cs out route r es h1 h2 h3 h4

/-- Witness for C7 at concrete inputs: the chain `[pass, block, tail]` on the
`/hello` request short-circuits at `block` with the 418 response — `tail` and
the endpoint uninvoked — and `processRequest` stamps that response and
computes the state from it; the all-null chain `[pass, tail]` reaches the
endpoint. -/
theorem C7_interceptor_chain_witness :
    runChain [passInterceptor, blockInterceptor, tailInterceptor]
        helloRoute.endpoint (requestOf helloRead11.2 helloRoute) =
      (TryResult.ok teapotResponse,
       [passInterceptor].map (fun j => Event.interceptorCall j.id) ++
         [Event.interceptorCall blockInterceptor.id]) ∧
    runChain [passInterceptor, tailInterceptor]
        helloRoute.endpoint (requestOf helloRead11.2 helloRoute) =
      (toTryResult (helloRoute.endpoint (requestOf helloRead11.2 helloRoute)),
       [passInterceptor, tailInterceptor].map (fun j => Event.interceptorCall j.id) ++
         [Event.endpointCall]) ∧
    processRequest demoRouter helloRead11 defaultErrorHandler
        [passInterceptor, blockInterceptor, tailInterceptor] ConnectionState.CLOSE =
      { response := some (stampServer teapotResponse)
        connectionState := considerConnectionState (requestOf helloRead11.2 helloRoute)
          (stampServer teapotResponse)
        events := Event.routerCall "GET" "/hello" ::
          [Event.interceptorCall 1, Event.interceptorCall 2] } := by
  have h := C7_interceptor_chain [passInterceptor] blockInterceptor [tailInterceptor]
    [passInterceptor, tailInterceptor] helloRoute.endpoint
    (requestOf helloRead11.2 helloRoute) teapotResponse
    [Event.interceptorCall 1, Event.interceptorCall 2] demoRouter defaultErrorHandler
    ConnectionState.CLOSE helloRead11 helloRoute
  exact ⟨h.1 (by decide) (by decide), h.2.1 (by decide),
         h.2.2 (by decide) (by decide) rfl (by decide)⟩

/-- C8: `Coroutine::handleError` classifies a failure in exactly three ways:
a broken-pipe `AsyncIOError` is propagated as the terminal outcome with no
Error-Handler call and no logging; any other failure with a response already
present for the cycle is logged at error severity and propagated, terminating
the connection; any other failure with no response present forms the
status-500 Error-Handler response carrying the failure's message and
transitions to the response-forming state. -/
theorem C8_handle_error_classification (eh : ErrorHandler) (st : CoroState)
    (e : CoroError) (r : Response) :
    (e.isBrokenPipe = true →
      Coroutine.handleError eh st (some e) =
        (st, [], HandleErrorNext.propagate (some e))) ∧
    (e.isBrokenPipe = false → st.currentResponse = some r →
      Coroutine.handleError eh st (some e) =
        (st, [Event.logError e.what], HandleErrorNext.propagate (some e))) ∧
    (e.isBrokenPipe = false → st.currentResponse = none →
      Coroutine.handleError eh st (some e) =
        ({ st with currentResponse := some (eh 500 e.what []) },
         [Event.errorHandlerCall 500 e.what []],
         HandleErrorNext.toResponseFormed)) := by
  refine ⟨?_, ?_, ?_⟩
  · intro hb
    simp [Coroutine.handleError, hb]
  · intro hb hr
    simp [Coroutine.handleError, hb, hr]
  · intro hb hr
    simp [Coroutine.handleError, hb, hr]

/-- Witness for C8 at concrete inputs: a broken-pipe I/O error on a fresh
state, a generic failure with the 200 response already stored, and the same
generic failure with no response stored. -/
theorem C8_handle_error_classification_witness :
    Coroutine.handleError defaultErrorHandler initCoroState
        (some (CoroError.asyncIo BROKEN_PIPE "pipe closed")) =
      (initCoroState, [],
       HandleErrorNext.propagate (some (CoroError.asyncIo BROKEN_PIPE "pipe closed"))) ∧
    Coroutine.handleError defaultErrorHandler
        { currentRequest := some (requestOf helloRead11.2 helloRoute)
          currentResponse := some (stampServer okResponse)
          connectionState := ConnectionState.KEEP_ALIVE }
        (some (CoroError.generic "boom")) =
      ({ currentRequest := some (requestOf helloRead11.2 helloRoute)
         currentResponse := some (stampServer okResponse)
         connectionState := ConnectionState.KEEP_ALIVE },
       [Event.logError "boom"],
       HandleErrorNext.propagate (some (CoroError.generic "boom"))) ∧
    Coroutine.handleError defaultErrorHandler initCoroState
        (some (CoroError.generic "boom")) =
      ({ initCoroState with currentResponse := some (defaultErrorHandler 500 "boom" []) },
       [Event.errorHandlerCall 500 "boom" []],
       HandleErrorNext.toResponseFormed) := by
  refine ⟨?_, ?_, ?_⟩
  · exact (C8_handle_error_classification defaultErrorHandler initCoroState
      (CoroError.asyncIo BROKEN_PIPE "pipe closed") okResponse).1 (by decide)
  · exact (C8_handle_error_classification defaultErrorHandler
      { currentRequest := some (requestOf helloRead11.2 helloRoute)
        currentResponse := some (stampServer okResponse)
        connectionState := ConnectionState.KEEP_ALIVE }
      (CoroError.generic "boom") (stampServer okResponse)).2.1 (by decide) (by decide)
  · exact (C8_handle_error_classification defaultErrorHandler initCoroState
      (CoroError.generic "boom") okResponse).2.2 (by decide) (by decide)

/-- C9: on a keep-alive connection, `m_currentResponse` and
`m_currentRequest` are not reset when the machine re-enters header parsing,
and they do influence the next request's error handling. First run: request
one (`GET /hello HTTP/1.1`) completes with KEEP_ALIVE; when the second
cycle's header read fails, `handleError` finds the previous cycle's response
still stored, so it logs and drops the connection — no 500 Error-Handler
response is formed. Second run: from the same point with the previous
response cleared (the behaviour the claim describes), the identical failure
forms, stamps and sends the 500 Error-Handler response. -/
theorem C9_previous_cycle_leaks :
    coroRun demoRouter defaultErrorHandler []
        [HeaderReadOutcome.success helloRead11.2,
         HeaderReadOutcome.failure (CoroError.generic "bad header block")]
        initCoroState =
      ([Event.routerCall "GET" "/hello", Event.endpointCall,
        Event.send (stampServer okResponse),
        Event.logError "bad header block"],
       { currentRequest := some (requestOf helloRead11.2 helloRoute)
         currentResponse := some (stampServer okResponse)
         connectionState := ConnectionState.KEEP_ALIVE },
       RunResult.failed (some (CoroError.generic "bad header block"))) ∧
    coroRun demoRouter defaultErrorHandler []
        [HeaderReadOutcome.failure (CoroError.generic "bad header block")]
        { currentRequest := some (requestOf helloRead11.2 helloRoute)
          currentResponse := none
          connectionState := ConnectionState.KEEP_ALIVE } =
      ([Event.errorHandlerCall 500 "bad header block" [],
        Event.send (stampServer (defaultErrorHandler 500 "bad header block" []))],
       { currentRequest := some (requestOf helloRead11.2 helloRoute)
         currentResponse := some (stampServer (defaultErrorHandler 500 "bad header block" []))
         connectionState := ConnectionState.KEEP_ALIVE },
       RunResult.outOfInput) := by
  refine ⟨?_, ?_⟩ <;> decide

end HttpProcessor
